import Mathlib

/-!
Shallow embedding of the circuit-breaker core of the Scalable API Gateway
repository.

The breaker itself is `api-gateway/circuitbreaker/circuit_breaker.go`: a
struct with a state (`Closed | Open | HalfOpen`), counters, and three
mutating operations (`RecordFailure`, `RecordSuccess`, `AllowRequest`).
Go's `int` counters are modelled as `Int` for the per-step transition
theorems; for the claim about counter ranges over unbounded call
sequences, where Go's fixed-width wrap-around is observable, a second
set of operations (`RecordFailureW`, `RecordSuccessW`) applies the
two's-complement 64-bit wrap `wrap64` to every increment, matching `int`
on the 64-bit platforms the gateway is built for. Timestamps and
durations are `Int` nanosecond counts on a monotone clock (an explicit
`now` argument replaces `time.Now()`), and the `float64` success-rate
comparison is the exact rational comparison
`successCount / totalCount < successRate` over `ℚ`. The gateway's cache handlers and the websocket broadcast path
(`main.go`) are embedded as pure functions over explicit request/response
and client data.
-/

namespace APIGateway

/-- The three breaker states, mirroring the Go constants
`StateClosed`, `StateOpen`, `StateHalfOpen`. -/
inductive CircuitBreakerState where
  | StateClosed
  | StateOpen
  | StateHalfOpen
deriving DecidableEq, Repr

open CircuitBreakerState

/-- The `CircuitBreaker` struct. The `sync.RWMutex` is dropped (operations
are modelled as whole atomic steps); all other fields are kept.
`failureThreshold`, `resetTimeout`, `successRate` are the configuration
set at construction; the rest is mutable state. -/
structure CircuitBreaker where
  state : CircuitBreakerState
  failureCount : Int
  failureThreshold : Int
  resetTimeout : Int
  lastFailureTime : Int
  successCount : Int
  totalCount : Int
  successRate : ℚ
deriving DecidableEq, Repr

/-- `NewCircuitBreaker`: zero-valued counters and `lastFailureTime`
(Go zero values), state `StateClosed`. -/
def NewCircuitBreaker (failureThreshold : Int) (resetTimeout : Int)
    (successRate : ℚ) : CircuitBreaker :=
  { state := StateClosed
    failureCount := 0
    failureThreshold := failureThreshold
    resetTimeout := resetTimeout
    lastFailureTime := 0
    successCount := 0
    totalCount := 0
    successRate := successRate }

/-- `GetState`: pure read of the state field. -/
def GetState (cb : CircuitBreaker) : CircuitBreakerState :=
  cb.state

/-- `RecordFailure`: increment `failureCount` and `totalCount`, set
`lastFailureTime` to the current time; then in `Closed` trip to `Open`
once `failureCount >= failureThreshold`, and in `HalfOpen` trip to `Open`
unconditionally. -/
def RecordFailure (cb : CircuitBreaker) (now : Int) : CircuitBreaker :=
  let cb' := { cb with
    failureCount := cb.failureCount + 1
    totalCount := cb.totalCount + 1
    lastFailureTime := now }
  if cb'.state = StateClosed then
    if cb'.failureCount ≥ cb'.failureThreshold then
      { cb' with state := StateOpen }
    else
      cb'
  else if cb'.state = StateHalfOpen then
    { cb' with state := StateOpen }
  else
    cb'

/-- `RecordSuccess`: increment `successCount` and `totalCount`; in
`HalfOpen` transition to `Closed` and reset `failureCount`,
`successCount` and `totalCount` to zero and return; otherwise, in
`Closed` with `totalCount > 0`, trip to `Open` when the success rate
falls below `successRate`. -/
def RecordSuccess (cb : CircuitBreaker) : CircuitBreaker :=
  let cb' := { cb with
    successCount := cb.successCount + 1
    totalCount := cb.totalCount + 1 }
  if cb'.state = StateHalfOpen then
    { cb' with
      state := StateClosed
      failureCount := 0
      successCount := 0
      totalCount := 0 }
  else if cb'.state = StateClosed ∧ cb'.totalCount > 0 then
    if (cb'.successCount : ℚ) / (cb'.totalCount : ℚ) < cb'.successRate then
      { cb' with state := StateOpen }
    else
      cb'
  else
    cb'

/-- `AllowRequest`: in `Closed` and `HalfOpen` allow with no change; in
`Open` allow and move to `HalfOpen` exactly when `now - lastFailureTime`
(`time.Since(cb.lastFailureTime)`) has reached `resetTimeout`, else deny
with no change. Returns the Go boolean together with the updated
breaker. -/
def AllowRequest (cb : CircuitBreaker) (now : Int) : Bool × CircuitBreaker :=
  if cb.state = StateClosed then
    (true, cb)
  else if cb.state = StateOpen then
    if now - cb.lastFailureTime ≥ cb.resetTimeout then
      (true, { cb with state := StateHalfOpen })
    else
      (false, cb)
  else if cb.state = StateHalfOpen then
    (true, cb)
  else
    (false, cb)

/-- One externally-invokable breaker operation, with the wall-clock
instant at which time-reading operations run. -/
inductive CBOp where
  | opRecordFailure (now : Int)
  | opRecordSuccess
  | opAllowRequest (now : Int)
deriving DecidableEq, Repr

/-- Apply one operation to a breaker (the boolean result of
`AllowRequest` is discarded; only the state effect matters here). -/
def applyOp (cb : CircuitBreaker) (op : CBOp) : CircuitBreaker :=
  match op with
  | .opRecordFailure now => RecordFailure cb now
  | .opRecordSuccess => RecordSuccess cb
  | .opAllowRequest now => (AllowRequest cb now).2

/-- Apply a sequence of operations left to right. -/
def applyOps (cb : CircuitBreaker) : List CBOp → CircuitBreaker
  | [] => cb
  | op :: ops => applyOps (applyOp cb op) ops

/-- Whether an operation is an outcome recording (`RecordSuccess` or
`RecordFailure`) rather than an admission check. -/
def isRecordOp : CBOp → Bool
  | .opAllowRequest _ => false
  | _ => true

/-- Number of `RecordFailure` calls in a sequence of operations. -/
def numFailures : List CBOp → Nat
  | [] => 0
  | .opRecordFailure _ :: ops => numFailures ops + 1
  | _ :: ops => numFailures ops

/-! ### Fixed-width counter semantics

Go's `int` is 64 bits wide on the platforms this gateway targets and
wraps around on overflow, so `cb.failureCount++` is addition modulo
`2 ^ 64` on the two's-complement range. The following variants of the
two recording operations apply that wrap to every counter increment;
they differ from `RecordFailure`/`RecordSuccess` in nothing else. -/

/-- Two's-complement wrap of an integer into the signed 64-bit range
`[-2 ^ 63, 2 ^ 63)`: the value of a Go `int` after overflow. -/
def wrap64 (x : Int) : Int := (x + 2 ^ 63) % 2 ^ 64 - 2 ^ 63

/-- `RecordFailure` with Go's fixed-width increments: `failureCount++`
and `totalCount++` wrap at the 64-bit boundary; the branching is
identical to `RecordFailure`. -/
def RecordFailureW (cb : CircuitBreaker) (now : Int) : CircuitBreaker :=
  let cb' := { cb with
    failureCount := wrap64 (cb.failureCount + 1)
    totalCount := wrap64 (cb.totalCount + 1)
    lastFailureTime := now }
  if cb'.state = StateClosed then
    if cb'.failureCount ≥ cb'.failureThreshold then
      { cb' with state := StateOpen }
    else
      cb'
  else if cb'.state = StateHalfOpen then
    { cb' with state := StateOpen }
  else
    cb'

/-- `RecordSuccess` with Go's fixed-width increments: `successCount++`
and `totalCount++` wrap at the 64-bit boundary; the branching is
identical to `RecordSuccess`. -/
def RecordSuccessW (cb : CircuitBreaker) : CircuitBreaker :=
  let cb' := { cb with
    successCount := wrap64 (cb.successCount + 1)
    totalCount := wrap64 (cb.totalCount + 1) }
  if cb'.state = StateHalfOpen then
    { cb' with
      state := StateClosed
      failureCount := 0
      successCount := 0
      totalCount := 0 }
  else if cb'.state = StateClosed ∧ cb'.totalCount > 0 then
    if (cb'.successCount : ℚ) / (cb'.totalCount : ℚ) < cb'.successRate then
      { cb' with state := StateOpen }
    else
      cb'
  else
    cb'

/-- Apply one operation under the fixed-width counter semantics. -/
def applyOpW (cb : CircuitBreaker) (op : CBOp) : CircuitBreaker :=
  match op with
  | .opRecordFailure now => RecordFailureW cb now
  | .opRecordSuccess => RecordSuccessW cb
  | .opAllowRequest now => (AllowRequest cb now).2

/-- Apply a sequence of operations under the fixed-width counter
semantics. -/
def applyOpsW (cb : CircuitBreaker) : List CBOp → CircuitBreaker
  | [] => cb
  | op :: ops => applyOpsW (applyOpW cb op) ops

/-! ### Gateway integration (`main.go`)

The cache handlers wrap the downstream call in `cacheBreaker.Execute` and
write the result back; the websocket side keeps a `clients` set and
`broadcastStateChange` fans a `state_change` message out to it, pruning
clients whose send fails. -/

/-- An HTTP response as the handlers observe and produce it: status code,
header list, body bytes. -/
structure HTTPResponse where
  statusCode : Nat
  headers : List (String × String)
  body : String
deriving DecidableEq, Repr

/-- Go's `Header.Get`: first value stored under the name, `""` when
absent. -/
def headerGet : List (String × String) → String → String
  | [], _ => ""
  | p :: hs, name => if p.1 = name then p.2 else headerGet hs name

/-- Outcome of `cacheBreaker.Execute`: the downstream `*http.Response`,
or a non-nil error (transport failure or the breaker's own
open/too-many-requests refusal). -/
inductive ExecuteResult where
  | ok (resp : HTTPResponse)
  | err (msg : String)
deriving DecidableEq, Repr

/-- `respondWithError`: JSON-encode `Response{Status: "error",
Message: message}` with the given HTTP status code. -/
def respondWithError (message : String) (statusCode : Nat) : HTTPResponse :=
  { statusCode := statusCode
    headers := [("Content-Type", "application/json")]
    body := "\x7b\"status\":\"error\",\"message\":\"" ++ message ++ "\"\x7d" }

/-- The `GET /api/cache/{key}` handler after `Execute` returns: on error,
`respondWithError ("Failed to get cache") 500`; on success, copy the
downstream `Content-Type` header, write the downstream status code, and
`io.Copy` the downstream body. -/
def handleCacheGet (result : ExecuteResult) : HTTPResponse :=
  match result with
  | .err _ => respondWithError ("Failed to get cache") 500
  | .ok resp =>
    { statusCode := resp.statusCode
      headers := [("Content-Type", headerGet resp.headers ("Content-Type"))]
      body := resp.body }

/-- The `POST /api/cache` handler after `Execute` returns: same shape as
the GET handler with the error message `"Failed to set cache"`. -/
def handleCachePost (result : ExecuteResult) : HTTPResponse :=
  match result with
  | .err _ => respondWithError ("Failed to set cache") 500
  | .ok resp =>
    { statusCode := resp.statusCode
      headers := [("Content-Type", headerGet resp.headers ("Content-Type"))]
      body := resp.body }

/-- A registered websocket client: its identity and whether a
`WriteJSON` to it succeeds. -/
structure Client where
  id : Nat
  writeOk : Bool
deriving DecidableEq, Repr

/-- The `state_change` message built by `broadcastStateChange`. -/
structure StateChangeMessage where
  msgType : String
  fromState : CircuitBreakerState
  toState : CircuitBreakerState
  time : Int
deriving DecidableEq, Repr

/-- `broadcastStateChange`: build the `state_change` message from the
given from/to states and the current time, attempt a `WriteJSON` to every
registered client, and delete from the client set each client whose write
failed. Returns the message and the surviving client set. -/
def broadcastStateChange (clients : List Client)
    (fromS toS : CircuitBreakerState) (now : Int) :
    StateChangeMessage × List Client :=
  (⟨"state_change", fromS, toS, now⟩, clients.filter (fun c => c.writeOk))

/-- The final step of the `/test-circuit` handler's goroutine: it reads
`finalState := cacheBreaker.State()` and, when that state is `Closed`,
calls `broadcastStateChange(StateHalfOpen, StateClosed)` to "force a
state update"; the breaker itself is not touched. Returns the breaker
state after the step together with the list of (from, to) broadcasts the
step itself emits. -/
def testCircuitFinalStep (finalState : CircuitBreakerState) :
    CircuitBreakerState × List (CircuitBreakerState × CircuitBreakerState) :=
  (finalState,
    if finalState = StateClosed then [(StateHalfOpen, StateClosed)] else [])

/-! ### Concrete breakers used to instantiate the theorems -/

/-- A breaker sitting in `HalfOpen` with non-trivial counters. -/
def cbHalfOpenEx : CircuitBreaker :=
  { state := StateHalfOpen, failureCount := 2, failureThreshold := 3,
    resetTimeout := 100, lastFailureTime := 50, successCount := 5,
    totalCount := 9, successRate := 1/2 }

/-- A breaker sitting in `Open` with non-trivial counters. -/
def cbOpenEx : CircuitBreaker :=
  { state := StateOpen, failureCount := 4, failureThreshold := 3,
    resetTimeout := 10, lastFailureTime := 7, successCount := 3,
    totalCount := 7, successRate := 1/2 }

/-- A `Closed` breaker one failure away from its threshold. -/
def cbClosedEx : CircuitBreaker :=
  { state := StateClosed, failureCount := 1, failureThreshold := 2,
    resetTimeout := 10, lastFailureTime := 0, successCount := 4,
    totalCount := 6, successRate := 1/2 }

/-- A `Closed` breaker whose next `RecordSuccess` drops the success rate
to 1/2, below its 9/10 threshold, and so trips it to `Open`. -/
def cbRateTripEx : CircuitBreaker :=
  { state := StateClosed, failureCount := 1, failureThreshold := 3,
    resetTimeout := 10, lastFailureTime := 0, successCount := 0,
    totalCount := 1, successRate := 9/10 }

/-! ### Field-effect lemmas for the three operations -/

/-- `RecordFailure` always bumps `failureCount` and `totalCount`, stamps
`lastFailureTime`, and leaves `successCount` and the configuration
untouched, in every state. -/
theorem RecordFailure_fields (cb : CircuitBreaker) (now : Int) :
    (RecordFailure cb now).failureCount = cb.failureCount + 1 ∧
    (RecordFailure cb now).totalCount = cb.totalCount + 1 ∧
    (RecordFailure cb now).lastFailureTime = now ∧
    (RecordFailure cb now).successCount = cb.successCount ∧
    (RecordFailure cb now).failureThreshold = cb.failureThreshold ∧
    (RecordFailure cb now).resetTimeout = cb.resetTimeout ∧
    (RecordFailure cb now).successRate = cb.successRate := by
  simp only [RecordFailure]
  split_ifs <;> simp

/-- `RecordFailure` from `Closed` lands in `Open` exactly when the bumped
`failureCount` reaches the threshold. -/
theorem RecordFailure_state_closed (cb : CircuitBreaker) (now : Int)
    (h : cb.state = StateClosed) :
    (RecordFailure cb now).state =
      if cb.failureThreshold ≤ cb.failureCount + 1 then StateOpen
      else StateClosed := by
  simp only [RecordFailure]
  split_ifs <;> simp_all

/-- `RecordFailure` from `HalfOpen` lands in `Open` unconditionally. -/
theorem RecordFailure_state_halfOpen (cb : CircuitBreaker) (now : Int)
    (h : cb.state = StateHalfOpen) :
    (RecordFailure cb now).state = StateOpen := by
  simp only [RecordFailure]
  split_ifs <;> simp_all

/-- `RecordFailure` from `Closed`, as a whole record: counters bumped,
failure time stamped, state `Open` exactly when the bumped count reaches
the threshold. -/
theorem RecordFailure_closed (cb : CircuitBreaker) (now : Int)
    (h : cb.state = StateClosed) :
    RecordFailure cb now =
      if cb.failureThreshold ≤ cb.failureCount + 1 then
        { cb with
          state := StateOpen,
          failureCount := cb.failureCount + 1,
          totalCount := cb.totalCount + 1,
          lastFailureTime := now }
      else
        { cb with
          failureCount := cb.failureCount + 1,
          totalCount := cb.totalCount + 1,
          lastFailureTime := now } := by
  simp only [RecordFailure]
  split_ifs <;> simp_all

/-- `RecordFailure` from `Open` only bumps counters and stamps the
failure time. -/
theorem RecordFailure_open (cb : CircuitBreaker) (now : Int)
    (h : cb.state = StateOpen) :
    RecordFailure cb now =
      { cb with
        failureCount := cb.failureCount + 1,
        totalCount := cb.totalCount + 1,
        lastFailureTime := now } := by
  simp only [RecordFailure]
  split_ifs <;> simp_all

/-- `RecordSuccess` from `HalfOpen` moves to `Closed` and zeroes
`failureCount`, `successCount` and `totalCount`; every other field is
kept. -/
theorem RecordSuccess_halfOpen (cb : CircuitBreaker)
    (h : cb.state = StateHalfOpen) :
    RecordSuccess cb =
      { cb with
        state := StateClosed,
        failureCount := 0,
        successCount := 0,
        totalCount := 0 } := by
  simp only [RecordSuccess]
  split_ifs
  all_goals simp_all

/-- `RecordSuccess` from `Open` bumps `successCount` and `totalCount` and
changes nothing else. -/
theorem RecordSuccess_open (cb : CircuitBreaker) (h : cb.state = StateOpen) :
    RecordSuccess cb =
      { cb with
        successCount := cb.successCount + 1,
        totalCount := cb.totalCount + 1 } := by
  simp only [RecordSuccess]
  split_ifs <;> simp_all

/-- `RecordSuccess` from `Closed` bumps `successCount` and `totalCount`
and trips to `Open` exactly when the bumped total is positive and the
bumped success rate is strictly below `successRate`. -/
theorem RecordSuccess_closed (cb : CircuitBreaker)
    (h : cb.state = StateClosed) :
    RecordSuccess cb =
      if 0 < cb.totalCount + 1 ∧
          ((cb.successCount + 1 : Int) : ℚ) / ((cb.totalCount + 1 : Int) : ℚ) <
            cb.successRate then
        { cb with
          state := StateOpen,
          successCount := cb.successCount + 1,
          totalCount := cb.totalCount + 1 }
      else
        { cb with
          successCount := cb.successCount + 1,
          totalCount := cb.totalCount + 1 } := by
  simp only [RecordSuccess]
  split_ifs <;> simp_all
  all_goals linarith

/-- `AllowRequest` in `Closed` allows and changes nothing. -/
theorem AllowRequest_closed (cb : CircuitBreaker) (now : Int)
    (h : cb.state = StateClosed) :
    AllowRequest cb now = (true, cb) := by
  simp [AllowRequest, h]

/-- `AllowRequest` in `HalfOpen` allows and changes nothing. -/
theorem AllowRequest_halfOpen (cb : CircuitBreaker) (now : Int)
    (h : cb.state = StateHalfOpen) :
    AllowRequest cb now = (true, cb) := by
  simp [AllowRequest, h]

/-- `AllowRequest` in `Open` once `resetTimeout` has elapsed since
`lastFailureTime` allows and moves to `HalfOpen`. -/
theorem AllowRequest_open_elapsed (cb : CircuitBreaker) (now : Int)
    (h : cb.state = StateOpen)
    (ht : cb.resetTimeout ≤ now - cb.lastFailureTime) :
    AllowRequest cb now = (true, { cb with state := StateHalfOpen }) := by
  simp [AllowRequest, h, ht]

/-- `AllowRequest` in `Open` before `resetTimeout` has elapsed denies and
changes nothing. -/
theorem AllowRequest_open_early (cb : CircuitBreaker) (now : Int)
    (h : cb.state = StateOpen)
    (ht : now - cb.lastFailureTime < cb.resetTimeout) :
    AllowRequest cb now = (false, cb) := by
  simp [AllowRequest, h, not_le.mpr ht]

/-! ### Claim theorems -/

/-- Claim C1, counterexample: on the `HalfOpen` breaker `cbHalfOpenEx`
(with `successCount = 5`, `totalCount = 9`), `RecordSuccess` does move to
`Closed` with `failureCount = 0`, but `successCount` and `totalCount` do
not keep their incremented values: both are reset to `0` as well, so
`failureCount` is not the only counter reset by the transition. -/
theorem C1_counterexample :
    cbHalfOpenEx.state = StateHalfOpen ∧
    (RecordSuccess cbHalfOpenEx).state = StateClosed ∧
    (RecordSuccess cbHalfOpenEx).failureCount = 0 ∧
    ¬ ((RecordSuccess cbHalfOpenEx).successCount =
        cbHalfOpenEx.successCount + 1 ∧
       (RecordSuccess cbHalfOpenEx).totalCount =
        cbHalfOpenEx.totalCount + 1) := by
  refine ⟨rfl, ?_, ?_, ?_⟩ <;>
    simp [RecordSuccess, cbHalfOpenEx]

/-- Claim C1, amended: for every breaker in `HalfOpen`, `RecordSuccess`
increments `successCount` and `totalCount` and then transitions to
`Closed`, resetting `failureCount`, `successCount` and `totalCount` all
to 0 (so the incremented values are discarded); `lastFailureTime` and the
configuration are unchanged. -/
theorem C1_halfOpen_recovery (cb : CircuitBreaker)
    (h : cb.state = StateHalfOpen) :
    RecordSuccess cb =
      { cb with
        state := StateClosed,
        failureCount := 0,
        successCount := 0,
        totalCount := 0 } :=
  RecordSuccess_halfOpen cb h

/-- Claim C1, witness: the amended statement evaluated on
`cbHalfOpenEx`. -/
theorem C1_witness :
    RecordSuccess cbHalfOpenEx =
      { cbHalfOpenEx with
        state := StateClosed,
        failureCount := 0,
        successCount := 0,
        totalCount := 0 } :=
  C1_halfOpen_recovery cbHalfOpenEx rfl

/-- Claim C4: every `RecordFailure` increments `failureCount` and
`totalCount` and stamps `lastFailureTime` with the current time; from
`Closed` it transitions to `Open` exactly when the incremented
`failureCount` has reached `failureThreshold`, from `HalfOpen` it
transitions to `Open` unconditionally, and from `Open` the state stays
`Open`. -/
theorem C4_recordFailure_spec (cb : CircuitBreaker) (now : Int) :
    (RecordFailure cb now).failureCount = cb.failureCount + 1 ∧
    (RecordFailure cb now).totalCount = cb.totalCount + 1 ∧
    (RecordFailure cb now).lastFailureTime = now ∧
    (cb.state = StateClosed →
      ((RecordFailure cb now).state = StateOpen ↔
        cb.failureThreshold ≤ cb.failureCount + 1)) ∧
    (cb.state = StateHalfOpen → (RecordFailure cb now).state = StateOpen) ∧
    (cb.state = StateOpen → (RecordFailure cb now).state = StateOpen) := by
  obtain ⟨h1, h2, h3, -⟩ := RecordFailure_fields cb now
  refine ⟨h1, h2, h3, ?_, ?_, ?_⟩
  · intro h
    rw [RecordFailure_state_closed cb now h]
    split_ifs with hthr
    · simp [hthr]
    · simp [hthr]
  · intro h
    exact RecordFailure_state_halfOpen cb now h
  · intro h
    rw [RecordFailure_open cb now h]
    exact h

/-- Claim C4, witness: on `cbClosedEx` (one failure short of its
threshold of 2) a `RecordFailure` bumps the counter to 2 and trips the
state to `Open`. -/
theorem C4_witness :
    (RecordFailure cbClosedEx 3).failureCount = cbClosedEx.failureCount + 1 ∧
    (RecordFailure cbClosedEx 3).lastFailureTime = 3 ∧
    (RecordFailure cbClosedEx 3).state = StateOpen := by
  obtain ⟨h1, -, h3, h4, -, -⟩ := C4_recordFailure_spec cbClosedEx 3
  exact ⟨h1, h3, (h4 rfl).mpr (by decide)⟩

/-- Claim C5, counterexample: on the `Open` breaker `cbOpenEx`,
`RecordSuccess` is not a no-op: `successCount` and `totalCount` are
incremented by the call. -/
theorem C5_counterexample :
    cbOpenEx.state = StateOpen ∧
    (RecordSuccess cbOpenEx).successCount ≠ cbOpenEx.successCount ∧
    (RecordSuccess cbOpenEx).totalCount ≠ cbOpenEx.totalCount := by
  refine ⟨rfl, ?_, ?_⟩ <;> simp [RecordSuccess, cbOpenEx]

/-- Claim C5, amended: for every breaker in `Open`, `RecordSuccess`
leaves the state, `failureCount` and `lastFailureTime` unchanged, but it
does increment `successCount` and `totalCount` (it is not a complete
no-op). -/
theorem C5_open_recordSuccess (cb : CircuitBreaker)
    (h : cb.state = StateOpen) :
    RecordSuccess cb =
      { cb with
        successCount := cb.successCount + 1,
        totalCount := cb.totalCount + 1 } :=
  RecordSuccess_open cb h

/-- Claim C5, witness: the amended statement evaluated on `cbOpenEx`. -/
theorem C5_witness :
    RecordSuccess cbOpenEx =
      { cbOpenEx with
        successCount := cbOpenEx.successCount + 1,
        totalCount := cbOpenEx.totalCount + 1 } :=
  C5_open_recordSuccess cbOpenEx rfl

/-- Claim C3: `AllowRequest` returns `true` with no state change in
`Closed` and in `HalfOpen`; in `Open` it returns `true` and moves to
`HalfOpen` exactly when `now - lastFailureTime` has reached
`resetTimeout`, and otherwise returns `false` with no change. -/
theorem C3_allowRequest_spec (cb : CircuitBreaker) (now : Int) :
    (cb.state = StateClosed → AllowRequest cb now = (true, cb)) ∧
    (cb.state = StateHalfOpen → AllowRequest cb now = (true, cb)) ∧
    (cb.state = StateOpen →
      (cb.resetTimeout ≤ now - cb.lastFailureTime →
        AllowRequest cb now = (true, { cb with state := StateHalfOpen })) ∧
      (now - cb.lastFailureTime < cb.resetTimeout →
        AllowRequest cb now = (false, cb))) :=
  ⟨AllowRequest_closed cb now, AllowRequest_halfOpen cb now,
   fun h => ⟨AllowRequest_open_elapsed cb now h,
             AllowRequest_open_early cb now h⟩⟩

/-- Claim C3, witness: all four branches evaluated on concrete breakers
(`cbOpenEx` has `lastFailureTime = 7`, `resetTimeout = 10`). -/
theorem C3_witness :
    AllowRequest cbClosedEx 5 = (true, cbClosedEx) ∧
    AllowRequest cbHalfOpenEx 5 = (true, cbHalfOpenEx) ∧
    AllowRequest cbOpenEx 20 = (true, { cbOpenEx with state := StateHalfOpen }) ∧
    AllowRequest cbOpenEx 8 = (false, cbOpenEx) :=
  ⟨(C3_allowRequest_spec cbClosedEx 5).1 rfl,
   (C3_allowRequest_spec cbHalfOpenEx 5).2.1 rfl,
   ((C3_allowRequest_spec cbOpenEx 20).2.2 rfl).1 (by decide),
   ((C3_allowRequest_spec cbOpenEx 8).2.2 rfl).2 (by decide)⟩

/-- A `Closed` breaker produced by `NewCircuitBreaker 3 100 (9/10)`
followed by one `RecordSuccess` and one `RecordFailure`: its success
rate is 1/2, below the 9/10 threshold, yet its state is `Closed`. -/
def cbRateBelowEx : CircuitBreaker :=
  applyOps (NewCircuitBreaker 3 100 (9/10))
    [CBOp.opRecordSuccess, CBOp.opRecordFailure 5]

/-- The value of `RecordSuccess` on the freshly constructed breaker. -/
theorem cbRateBelowEx_step1 :
    RecordSuccess (NewCircuitBreaker 3 100 (9/10)) =
      { state := StateClosed, failureCount := 0, failureThreshold := 3,
        resetTimeout := 100, lastFailureTime := 0, successCount := 1,
        totalCount := 1, successRate := 9/10 } := by
  rw [RecordSuccess_closed _ rfl]
  split_ifs with hc
  · exfalso
    have hlt := hc.2
    norm_num [NewCircuitBreaker] at hlt
  · norm_num [NewCircuitBreaker]

/-- The concrete value of `cbRateBelowEx`. -/
theorem cbRateBelowEx_eval :
    cbRateBelowEx =
      { state := StateClosed, failureCount := 1, failureThreshold := 3,
        resetTimeout := 100, lastFailureTime := 5, successCount := 1,
        totalCount := 2, successRate := 9/10 } := by
  show RecordFailure (RecordSuccess (NewCircuitBreaker 3 100 (9/10))) 5 = _
  rw [cbRateBelowEx_step1]
  norm_num [RecordFailure]

/-- Claim C2, counterexample: after one success and one failure on a
breaker with `successRateThreshold = 9/10`, the success rate 1/2 is below
the threshold and `failureCount` has not reached `failureThreshold`, yet
the state is still `Closed`, not `Open`: `RecordFailure` never evaluates
the rate floor. -/
theorem C2_counterexample :
    cbRateBelowEx.state = StateClosed ∧
    0 < cbRateBelowEx.totalCount ∧
    (cbRateBelowEx.successCount : ℚ) / (cbRateBelowEx.totalCount : ℚ) <
      cbRateBelowEx.successRate ∧
    cbRateBelowEx.failureCount < cbRateBelowEx.failureThreshold ∧
    cbRateBelowEx.state ≠ StateOpen := by
  refine ⟨?_, ?_, ?_, ?_, ?_⟩ <;> rw [cbRateBelowEx_eval] <;>
    first
    | decide
    | norm_num

/-- Claim C2, amended: in `Closed` the success-rate floor is evaluated
only inside `RecordSuccess`: the state after `RecordSuccess` is `Open`
exactly when the incremented total is positive and the incremented rate
is below `successRateThreshold`, whereas the state after `RecordFailure`
is `Open` exactly when the incremented `failureCount` reaches
`failureThreshold`, regardless of the success rate. -/
theorem C2_rate_floor_only_on_success (cb : CircuitBreaker) (now : Int)
    (h : cb.state = StateClosed) :
    ((RecordSuccess cb).state = StateOpen ↔
      0 < cb.totalCount + 1 ∧
      ((cb.successCount + 1 : Int) : ℚ) / ((cb.totalCount + 1 : Int) : ℚ) <
        cb.successRate) ∧
    ((RecordFailure cb now).state = StateOpen ↔
      cb.failureThreshold ≤ cb.failureCount + 1) := by
  constructor
  · rw [RecordSuccess_closed cb h]
    split_ifs with hc
    · exact iff_of_true rfl hc
    · refine iff_of_false ?_ hc
      simp [h]
  · rw [RecordFailure_state_closed cb now h]
    split_ifs with hthr
    · exact iff_of_true rfl hthr
    · refine iff_of_false ?_ hthr
      simp

/-- Claim C2, witness: on `cbRateTripEx` (Closed, one recorded failure,
rate threshold 9/10) a `RecordSuccess` trips the breaker to `Open`. -/
theorem C2_witness :
    (RecordSuccess cbRateTripEx).state = StateOpen :=
  ((C2_rate_floor_only_on_success cbRateTripEx 0 rfl).1).mpr
    ⟨by decide, by norm_num [cbRateTripEx]⟩

/-- Claim C10: `RecordSuccess` never touches `lastFailureTime`, so a
breaker tripped to `Open` by the rate floor inside `RecordSuccess` still
measures its reset timeout from the most recent `RecordFailure`; if that
failure is at least `resetTimeout` old, the very next `AllowRequest`
returns `true` and moves the breaker to `HalfOpen`. -/
theorem C10_rate_trip_admits_immediately (cb : CircuitBreaker) (now : Int)
    (h : cb.state = StateClosed)
    (hopen : (RecordSuccess cb).state = StateOpen)
    (ht : cb.resetTimeout ≤ now - cb.lastFailureTime) :
    (RecordSuccess cb).lastFailureTime = cb.lastFailureTime ∧
    (AllowRequest (RecordSuccess cb) now).1 = true ∧
    ((AllowRequest (RecordSuccess cb) now).2).state = StateHalfOpen := by
  have hconf : (RecordSuccess cb).lastFailureTime = cb.lastFailureTime ∧
      (RecordSuccess cb).resetTimeout = cb.resetTimeout := by
    rw [RecordSuccess_closed cb h]
    split_ifs <;> simp
  have ha := AllowRequest_open_elapsed (RecordSuccess cb) now hopen
    (by rw [hconf.1, hconf.2]; exact ht)
  rw [ha]
  exact ⟨hconf.1, rfl, rfl⟩

/-- Claim C10, witness: `cbRateTripEx` (last failure at time 0, timeout
10) is rate-tripped by a `RecordSuccess`; at time 15 the next
`AllowRequest` already admits and moves to `HalfOpen`. -/
theorem C10_witness :
    (AllowRequest (RecordSuccess cbRateTripEx) 15).1 = true ∧
    ((AllowRequest (RecordSuccess cbRateTripEx) 15).2).state =
      StateHalfOpen := by
  have hc : 0 < cbRateTripEx.totalCount + 1 ∧
      ((cbRateTripEx.successCount + 1 : Int) : ℚ) /
        ((cbRateTripEx.totalCount + 1 : Int) : ℚ) <
        cbRateTripEx.successRate :=
    ⟨by decide, by norm_num [cbRateTripEx]⟩
  have hopen : (RecordSuccess cbRateTripEx).state = StateOpen := by
    rw [RecordSuccess_closed cbRateTripEx rfl, if_pos hc]
  obtain ⟨-, h2, h3⟩ := C10_rate_trip_admits_immediately cbRateTripEx 15 rfl
    hopen (by decide)
  exact ⟨h2, h3⟩

/-- `wrap64` is the identity on values already inside the signed 64-bit
range. -/
theorem wrap64_eq_self (x : Int) (h1 : -(2 ^ 63) ≤ x) (h2 : x < 2 ^ 63) :
    wrap64 x = x := by
  unfold wrap64
  have hp : (2 : Int) ^ 64 = 2 ^ 63 + 2 ^ 63 := by norm_num
  rw [Int.emod_eq_of_lt (by linarith) (by linarith)]
  ring

/-- Wrapping the left summand first does not change a wrapped sum. -/
theorem wrap64_add_cong (a b : Int) :
    wrap64 (wrap64 a + b) = wrap64 (a + b) := by
  unfold wrap64
  have h1 : (a + 2 ^ 63) % 2 ^ 64 - 2 ^ 63 + b + 2 ^ 63 =
      (a + 2 ^ 63) % 2 ^ 64 + b := by ring
  rw [h1, Int.emod_add_emod]
  have h2 : a + 2 ^ 63 + b = a + b + 2 ^ 63 := by ring
  rw [h2]

/-- `wrap64` is idempotent. -/
theorem wrap64_idem (a : Int) : wrap64 (wrap64 a) = wrap64 a := by
  have h := wrap64_add_cong a 0
  simpa using h

/-- Counter effect of `RecordFailureW`, uniform over the branches. -/
theorem RecordFailureW_counters (cb : CircuitBreaker) (t : Int) :
    (RecordFailureW cb t).failureCount = wrap64 (cb.failureCount + 1) ∧
    (RecordFailureW cb t).totalCount = wrap64 (cb.totalCount + 1) ∧
    (RecordFailureW cb t).successCount = cb.successCount := by
  simp only [RecordFailureW]
  split_ifs <;> simp

/-- Counter effect of `RecordSuccessW`: either the `HalfOpen` reset to
zero, or wrapped increments of `successCount` and `totalCount`. -/
theorem RecordSuccessW_counters (cb : CircuitBreaker) :
    ((RecordSuccessW cb).failureCount = 0 ∧
     (RecordSuccessW cb).successCount = 0 ∧
     (RecordSuccessW cb).totalCount = 0) ∨
    ((RecordSuccessW cb).failureCount = cb.failureCount ∧
     (RecordSuccessW cb).successCount = wrap64 (cb.successCount + 1) ∧
     (RecordSuccessW cb).totalCount = wrap64 (cb.totalCount + 1)) := by
  simp only [RecordSuccessW]
  split_ifs <;> simp

/-- `AllowRequest` never touches the three counters. -/
theorem AllowRequest_counters (cb : CircuitBreaker) (t : Int) :
    ((AllowRequest cb t).2).failureCount = cb.failureCount ∧
    ((AllowRequest cb t).2).successCount = cb.successCount ∧
    ((AllowRequest cb t).2).totalCount = cb.totalCount := by
  simp only [AllowRequest]
  split_ifs <;> simp

/-- Under the fixed-width semantics, a run of `n` `RecordFailure` calls
leaves `failureCount` at the 64-bit wrap of `failureCount + n`. -/
theorem applyOpsW_replicate_failureCount (t : Int) (n : Nat) :
    ∀ cb : CircuitBreaker, wrap64 cb.failureCount = cb.failureCount →
      (applyOpsW cb (List.replicate n (CBOp.opRecordFailure t))).failureCount =
        wrap64 (cb.failureCount + (n : Int)) := by
  induction n with
  | zero =>
    intro cb h
    rw [List.replicate_zero]
    show cb.failureCount = wrap64 (cb.failureCount + ((0 : Nat) : Int))
    rw [Nat.cast_zero, add_zero]
    exact h.symm
  | succ k ih =>
    intro cb h
    rw [List.replicate_succ]
    simp only [applyOpsW, applyOpW]
    obtain ⟨hf, -, -⟩ := RecordFailureW_counters cb t
    rw [ih (RecordFailureW cb t) (by rw [hf]; exact wrap64_idem _), hf,
      wrap64_add_cong]
    congr 1
    push_cast
    ring

/-- The bounded-run invariant under the fixed-width semantics: if every
counter starts within `[0, k]` (with `successCount ≤ totalCount`) and
`k` plus the number of remaining operations stays below `2 ^ 63`, no
increment ever wraps, and the counters end non-negative, ordered, and
bounded by `k` plus the number of operations. -/
theorem counterInvW (ops : List CBOp) :
    ∀ (cb : CircuitBreaker) (k : Int),
      0 ≤ cb.failureCount → cb.failureCount ≤ k →
      0 ≤ cb.successCount → cb.successCount ≤ cb.totalCount →
      cb.totalCount ≤ k →
      k + (ops.length : Int) < 2 ^ 63 →
      0 ≤ (applyOpsW cb ops).failureCount ∧
      (applyOpsW cb ops).failureCount ≤ k + (ops.length : Int) ∧
      0 ≤ (applyOpsW cb ops).successCount ∧
      (applyOpsW cb ops).successCount ≤ (applyOpsW cb ops).totalCount ∧
      (applyOpsW cb ops).totalCount ≤ k + (ops.length : Int) := by
  induction ops with
  | nil =>
    intro cb k h1 h2 h3 h4 h5 hlen
    simp only [applyOpsW, List.length_nil, Nat.cast_zero, add_zero]
    exact ⟨h1, h2, h3, h4, h5⟩
  | cons op rest ih =>
    intro cb k h1 h2 h3 h4 h5 hlen
    have hp63 : (0 : Int) < 2 ^ 63 := by positivity
    have hl : (0 : Int) ≤ (rest.length : Int) := Int.natCast_nonneg _
    rw [List.length_cons] at hlen
    push_cast at hlen
    have hlen' : k + 1 + (rest.length : Int) < 2 ^ 63 := by linarith
    simp only [applyOpsW, List.length_cons]
    push_cast
    cases op with
    | opRecordFailure t =>
      simp only [applyOpW]
      obtain ⟨hf, ht, hs⟩ := RecordFailureW_counters cb t
      have hwf : wrap64 (cb.failureCount + 1) = cb.failureCount + 1 :=
        wrap64_eq_self _ (by linarith) (by linarith)
      have hwt : wrap64 (cb.totalCount + 1) = cb.totalCount + 1 :=
        wrap64_eq_self _ (by linarith) (by linarith)
      obtain ⟨c1, c2, c3, c4, c5⟩ :=
        ih (RecordFailureW cb t) (k + 1)
          (by rw [hf, hwf]; linarith) (by rw [hf, hwf]; linarith)
          (by rw [hs]; exact h3) (by rw [hs, ht, hwt]; linarith)
          (by rw [ht, hwt]; linarith) hlen'
      exact ⟨c1, by linarith, c3, c4, by linarith⟩
    | opRecordSuccess =>
      simp only [applyOpW]
      rcases RecordSuccessW_counters cb with ⟨hf, hs, ht⟩ | ⟨hf, hs, ht⟩
      · obtain ⟨c1, c2, c3, c4, c5⟩ :=
          ih (RecordSuccessW cb) (k + 1)
            (by rw [hf]) (by rw [hf]; linarith)
            (by rw [hs]) (by rw [hs, ht])
            (by rw [ht]; linarith) hlen'
        exact ⟨c1, by linarith, c3, c4, by linarith⟩
      · have hws : wrap64 (cb.successCount + 1) = cb.successCount + 1 :=
          wrap64_eq_self _ (by linarith) (by linarith)
        have hwt : wrap64 (cb.totalCount + 1) = cb.totalCount + 1 :=
          wrap64_eq_self _ (by linarith) (by linarith)
        obtain ⟨c1, c2, c3, c4, c5⟩ :=
          ih (RecordSuccessW cb) (k + 1)
            (by rw [hf]; exact h1) (by rw [hf]; linarith)
            (by rw [hs, hws]; linarith) (by rw [hs, ht, hws, hwt]; linarith)
            (by rw [ht, hwt]; linarith) hlen'
        exact ⟨c1, by linarith, c3, c4, by linarith⟩
    | opAllowRequest t =>
      simp only [applyOpW]
      obtain ⟨hf, hs, ht⟩ := AllowRequest_counters cb t
      obtain ⟨c1, c2, c3, c4, c5⟩ :=
        ih ((AllowRequest cb t).2) (k + 1)
          (by rw [hf]; exact h1) (by rw [hf]; linarith)
          (by rw [hs]; exact h3) (by rw [hs, ht]; exact h4)
          (by rw [ht]; linarith) hlen'
      exact ⟨c1, by linarith, c3, c4, by linarith⟩

/-- Claim C8, counterexample: under Go's fixed-width `int` semantics the
claimed invariant fails for unbounded call sequences: starting from the
fresh breaker, a sequence of `2 ^ 63` `RecordFailure` calls wraps
`failureCount` to `-2 ^ 63`, which is negative. -/
theorem C8_counterexample :
    (applyOpsW (NewCircuitBreaker 3 100 0)
        (List.replicate (2 ^ 63) (CBOp.opRecordFailure 0))).failureCount
      < 0 := by
  have h0 : wrap64 (NewCircuitBreaker 3 100 0).failureCount =
      (NewCircuitBreaker 3 100 0).failureCount := by
    show wrap64 0 = 0
    exact wrap64_eq_self 0 (by norm_num) (by norm_num)
  rw [applyOpsW_replicate_failureCount 0 (2 ^ 63) (NewCircuitBreaker 3 100 0)
    h0]
  show wrap64 ((NewCircuitBreaker 3 100 0).failureCount +
    ((2 ^ 63 : Nat) : Int)) < 0
  simp only [NewCircuitBreaker]
  unfold wrap64
  push_cast

/-- Claim C8, amended: starting from a freshly constructed breaker,
under the fixed-width counter semantics, after any sequence of fewer
than `2 ^ 63` `AllowRequest`/`RecordSuccess`/`RecordFailure` calls — so
that no 64-bit counter increment can overflow — `failureCount`,
`successCount` and `totalCount` are non-negative and
`successCount ≤ totalCount`. -/
theorem C8_counter_invariant_bounded (failureThreshold resetTimeout : Int)
    (successRate : ℚ) (ops : List CBOp)
    (hlen : (ops.length : Int) < 2 ^ 63) :
    0 ≤ (applyOpsW (NewCircuitBreaker failureThreshold resetTimeout
        successRate) ops).failureCount ∧
    0 ≤ (applyOpsW (NewCircuitBreaker failureThreshold resetTimeout
        successRate) ops).successCount ∧
    0 ≤ (applyOpsW (NewCircuitBreaker failureThreshold resetTimeout
        successRate) ops).totalCount ∧
    (applyOpsW (NewCircuitBreaker failureThreshold resetTimeout
        successRate) ops).successCount ≤
      (applyOpsW (NewCircuitBreaker failureThreshold resetTimeout
        successRate) ops).totalCount := by
  obtain ⟨c1, c2, c3, c4, c5⟩ :=
    counterInvW ops (NewCircuitBreaker failureThreshold resetTimeout
        successRate) 0
      (le_refl 0) (le_refl 0) (le_refl 0) (le_refl 0) (le_refl 0)
      (by simpa using hlen)
  exact ⟨c1, c3, by linarith, c4⟩

/-- Claim C8, witness: the amended statement evaluated on a short
concrete sequence (one failure, one success). -/
theorem C8_witness :
    0 ≤ (applyOpsW (NewCircuitBreaker 2 100 0)
        [CBOp.opRecordFailure 1, CBOp.opRecordSuccess]).failureCount ∧
    0 ≤ (applyOpsW (NewCircuitBreaker 2 100 0)
        [CBOp.opRecordFailure 1, CBOp.opRecordSuccess]).successCount ∧
    0 ≤ (applyOpsW (NewCircuitBreaker 2 100 0)
        [CBOp.opRecordFailure 1, CBOp.opRecordSuccess]).totalCount ∧
    (applyOpsW (NewCircuitBreaker 2 100 0)
        [CBOp.opRecordFailure 1, CBOp.opRecordSuccess]).successCount ≤
      (applyOpsW (NewCircuitBreaker 2 100 0)
        [CBOp.opRecordFailure 1, CBOp.opRecordSuccess]).totalCount :=
  C8_counter_invariant_bounded 2 100 0
    [CBOp.opRecordFailure 1, CBOp.opRecordSuccess] (by norm_num)

/-- A sequence of recording operations never leaves the `Open` state:
`RecordFailure` keeps `Open` and `RecordSuccess` in `Open` only bumps
counters. -/
theorem applyOps_open_stays (ops : List CBOp) :
    ∀ cb : CircuitBreaker, (∀ op ∈ ops, isRecordOp op = true) →
      cb.state = StateOpen → (applyOps cb ops).state = StateOpen := by
  induction ops with
  | nil => exact fun cb _ h => h
  | cons op ops ih =>
    intro cb hrec h
    have hops : ∀ o ∈ ops, isRecordOp o = true :=
      fun o ho => hrec o (List.mem_cons_of_mem _ ho)
    simp only [applyOps]
    cases op with
    | opRecordFailure now =>
      simp only [applyOp]
      exact ih _ hops (by rw [RecordFailure_open cb now h]; exact h)
    | opRecordSuccess =>
      simp only [applyOp]
      exact ih _ hops (by rw [RecordSuccess_open cb h]; exact h)
    | opAllowRequest now =>
      exact absurd (hrec _ (List.mem_cons_self _ _)) (by simp [isRecordOp])

/-- From `Closed` with `failureCount` still below the threshold, any
sequence of recording operations containing enough failures to cover the
remaining distance drives the state to `Open`. -/
theorem applyOps_closed_reaches_open (ops : List CBOp) :
    ∀ cb : CircuitBreaker, (∀ op ∈ ops, isRecordOp op = true) →
      cb.state = StateClosed →
      cb.failureCount < cb.failureThreshold →
      cb.failureThreshold ≤ cb.failureCount + (numFailures ops : Int) →
      (applyOps cb ops).state = StateOpen := by
  induction ops with
  | nil =>
    intro cb _ _ hlt hge
    exfalso
    have he : numFailures [] = 0 := rfl
    rw [he] at hge
    omega
  | cons op ops ih =>
    intro cb hrec h hlt hge
    have hops : ∀ o ∈ ops, isRecordOp o = true :=
      fun o ho => hrec o (List.mem_cons_of_mem _ ho)
    simp only [applyOps]
    cases op with
    | opRecordSuccess =>
      have he : numFailures (CBOp.opRecordSuccess :: ops) =
          numFailures ops := rfl
      rw [he] at hge
      simp only [applyOp]
      rw [RecordSuccess_closed cb h]
      split_ifs with hc
      · exact applyOps_open_stays ops _ hops rfl
      · exact ih _ hops h hlt hge
    | opRecordFailure now =>
      have he : numFailures (CBOp.opRecordFailure now :: ops) =
          numFailures ops + 1 := rfl
      rw [he] at hge
      simp only [applyOp]
      rw [RecordFailure_closed cb now h]
      split_ifs with hthr
      · exact applyOps_open_stays ops _ hops rfl
      · refine ih _ hops h ?_ ?_
        · show cb.failureCount + 1 < cb.failureThreshold
          omega
        · show cb.failureThreshold ≤ cb.failureCount + 1 + (numFailures ops : Int)
          omega
    | opAllowRequest now =>
      exact absurd (hrec _ (List.mem_cons_self _ _)) (by simp [isRecordOp])

/-- Claim C9: in `Closed`, `RecordSuccess` never resets `failureCount`,
so the failure counter is cumulative rather than consecutive: from a
`Closed` breaker with `failureCount = 0` (as left by the
`HalfOpen → Closed` reset) and a positive threshold, any interleaving of
`RecordSuccess`/`RecordFailure` calls containing at least
`failureThreshold` failures drives the state to `Open`, no matter how
many successes separate the failures. -/
theorem C9_failureCount_cumulative (cb : CircuitBreaker) (ops : List CBOp)
    (hstate : cb.state = StateClosed)
    (hcount : cb.failureCount = 0)
    (hthr : 1 ≤ cb.failureThreshold)
    (hrec : ∀ op ∈ ops, isRecordOp op = true)
    (hn : cb.failureThreshold ≤ (numFailures ops : Int)) :
    (applyOps cb ops).state = StateOpen := by
  refine applyOps_closed_reaches_open ops cb hrec hstate ?_ ?_
  · omega
  · omega

/-- The start state and the operation sequence for the C9 witness:
threshold 2, rate threshold 0, and failures separated by successes. -/
def cbC9Start : CircuitBreaker := NewCircuitBreaker 2 100 0

/-- A success/failure interleaving with two failures. -/
def opsC9 : List CBOp :=
  [CBOp.opRecordSuccess, CBOp.opRecordFailure 1, CBOp.opRecordSuccess,
   CBOp.opRecordFailure 2]

/-- Claim C9, witness: with threshold 2, the sequence success, failure,
success, failure ends in `Open` although no two failures are
consecutive. -/
theorem C9_witness : (applyOps cbC9Start opsC9).state = StateOpen :=
  C9_failureCount_cumulative cbC9Start opsC9 rfl rfl (by decide)
    (by decide) (by decide)

/-- A downstream response carrying a header other than `Content-Type`. -/
def respWithExtraHeaderEx : HTTPResponse :=
  { statusCode := 200,
    headers := [("Content-Type", "text/plain"), ("X-Request-Id", "42")],
    body := "hello" }

/-- Claim C6, counterexample: the downstream response carries the header
`X-Request-Id: 42`, but the gateway's output for it does not — the
handler copies only `Content-Type`, so headers are not forwarded
unchanged. -/
theorem C6_counterexample :
    headerGet respWithExtraHeaderEx.headers ("X-Request-Id") = "42" ∧
    headerGet (handleCacheGet (ExecuteResult.ok respWithExtraHeaderEx)).headers
      ("X-Request-Id") = "" ∧
    (handleCacheGet (ExecuteResult.ok respWithExtraHeaderEx)).headers ≠
      respWithExtraHeaderEx.headers := by
  refine ⟨?_, ?_, ?_⟩ <;> decide

/-- Claim C6, amended: for an admitted request whose downstream call
succeeds, the cache handlers forward the status code and body unchanged
and copy the `Content-Type` header, but drop every other header; when
`Execute` returns an error, the downstream outcome is replaced by a
generic 500 JSON error response rather than forwarded. -/
theorem C6_guarded_passthrough (resp : HTTPResponse) (emsg : String)
    (name : String) (hn : name ≠ "Content-Type") :
    (handleCacheGet (ExecuteResult.ok resp)).statusCode = resp.statusCode ∧
    (handleCacheGet (ExecuteResult.ok resp)).body = resp.body ∧
    headerGet (handleCacheGet (ExecuteResult.ok resp)).headers
      ("Content-Type") = headerGet resp.headers ("Content-Type") ∧
    headerGet (handleCacheGet (ExecuteResult.ok resp)).headers name = "" ∧
    handleCacheGet (ExecuteResult.err emsg) =
      respondWithError ("Failed to get cache") 500 ∧
    (handleCachePost (ExecuteResult.ok resp)).statusCode = resp.statusCode ∧
    (handleCachePost (ExecuteResult.ok resp)).body = resp.body ∧
    headerGet (handleCachePost (ExecuteResult.ok resp)).headers name = "" ∧
    handleCachePost (ExecuteResult.err emsg) =
      respondWithError ("Failed to set cache") 500 := by
  refine ⟨rfl, rfl, ?_, ?_, rfl, rfl, rfl, ?_, rfl⟩
  · simp [handleCacheGet, headerGet]
  · simp [handleCacheGet, headerGet, Ne.symm hn]
  · simp [handleCachePost, headerGet, Ne.symm hn]

/-- Claim C6, witness: the amended statement instantiated on the
response with the `X-Request-Id` header. -/
theorem C6_witness :
    (handleCacheGet (ExecuteResult.ok respWithExtraHeaderEx)).statusCode =
      200 ∧
    headerGet (handleCacheGet (ExecuteResult.ok respWithExtraHeaderEx)).headers
      ("X-Request-Id") = "" := by
  obtain ⟨h1, -, -, h4, -, -, -, -, -⟩ :=
    C6_guarded_passthrough respWithExtraHeaderEx ("boom") ("X-Request-Id")
      (by decide)
  exact ⟨h1.trans rfl, h4⟩

/-- Claim C7, counterexample: the final step of the `/test-circuit`
handler, when the breaker's state is already `Closed`, emits a broadcast
with from-state `HalfOpen` and to-state `Closed` even though the breaker
undergoes no state change there (its state is `Closed` both before and
after, and `HalfOpen ≠ StateClosed`): the event is synthesized, so a
broadcast is not delivered only when the breaker actually underwent that
transition. -/
theorem C7_counterexample :
    (testCircuitFinalStep StateClosed).1 = StateClosed ∧
    (testCircuitFinalStep StateClosed).2 =
      [(StateHalfOpen, StateClosed)] ∧
    StateHalfOpen ≠ StateClosed := by
  refine ⟨?_, ?_, ?_⟩ <;> decide

/-- Claim C7, amended: `broadcastStateChange` builds one `state_change`
event from the given from/to states and the current time and delivers it
to exactly the registered clients, pruning those whose write fails; but
in addition the `/test-circuit` handler synthesizes one extra
`HalfOpen → Closed` broadcast (without touching the breaker) whenever the
breaker's final state is `Closed`, so broadcasts are not in one-to-one
correspondence with actual transitions. -/
theorem C7_broadcast_contract (clients : List Client)
    (fromS toS : CircuitBreakerState) (now : Int)
    (c : Client) (s : CircuitBreakerState) :
    (broadcastStateChange clients fromS toS now).1 =
      { msgType := "state_change", fromState := fromS, toState := toS,
        time := now } ∧
    (c ∈ (broadcastStateChange clients fromS toS now).2 ↔
      c ∈ clients ∧ c.writeOk = true) ∧
    (testCircuitFinalStep s).1 = s ∧
    ((testCircuitFinalStep s).2 ≠ [] ↔ s = StateClosed) := by
  refine ⟨rfl, ?_, rfl, ?_⟩
  · simp [broadcastStateChange, List.mem_filter]
  · cases s <;> simp [testCircuitFinalStep]

end APIGateway
